import Mathlib

/-
Verification of the caching and refresh engine of the compute-accounts
daemon (package store of the repository), against its natural-language
specification.  The store implementation file itself (store/store.go) is
not part of the provided sources; only its test file (store/store_test.go)
and its caller (gcua/gcua.go) are.  The definitions below therefore model
the engine from the specification, with every observable detail pinned to
the assertions of store/store_test.go (error message strings, remote call
counts, cooldown gating, refresh triggering).  Time is modelled as a
natural number of abstract clock units, and the remote directory client is
modelled as a deterministic oracle indexed by the number of calls made so
far, exactly like the counting mock client of store_test.go.
-/

set_option linter.unusedVariables false

namespace GCUA

/-- Modelled from the spec: the accounts.User record of the repository
(package accounts is not in src).  Name and UID are the unique lookup
keys; GID is the primary group id; the remaining fields are passthrough
account data (section 3 of the spec). -/
structure User where
  Name : String
  UID : Nat
  GID : Nat
  Gecos : String
  HomeDirectory : String
  Shell : String
deriving DecidableEq

/-- Modelled from the spec: the accounts.Group record of the repository
(package accounts is not in src).  Name and GID are the unique lookup
keys; Members is an ordered, possibly empty list of user names. -/
structure Group where
  Name : String
  GID : Nat
  Members : List String
deriving DecidableEq

/-- Modelled from the spec: an Account Snapshot, the atomic unit of
account-cache state, holding the full user and group lists of one
successful remote fetch (section 3). -/
structure Snapshot where
  users : List User
  groups : List Group
deriving DecidableEq

/-- Modelled from the spec: the store.Config structure consumed at
construction, with the four duration options (section 6); durations are
abstract clock units. -/
structure Config where
  AccountRefreshFrequency : Nat
  AccountRefreshCooldown : Nat
  KeyRefreshFrequency : Nat
  KeyRefreshCooldown : Nat
deriving DecidableEq

/-- Modelled from the spec: the remote directory client (APIClient
interface).  Each capability is a deterministic oracle indexed by the
number of calls of that class made so far, mirroring the counting mock of
store_test.go; a none result is a failed remote fetch. -/
structure APIClient where
  UsersAndGroups : Nat → Option Snapshot
  AuthorizedKeys : Nat → String → Option (List String)

/-- Association-list update used for the key cache and the per-user
refresh timestamps; a new binding shadows any older one. -/
def assocSet {β : Type} (l : List (String × β)) (u : String) (v : β) : List (String × β) :=
  (u, v) :: l

/-- Association-list lookup returning the newest binding for a key. -/
def assocGet {β : Type} (l : List (String × β)) (u : String) : Option β :=
  (l.find? (fun p => decide (p.1 = u))).map Prod.snd

/-- Modelled from the spec: the mutable state owned by the refresh
coordinator — the account snapshot, the per-user key cache, the
per-class/per-key refresh timestamps (section 3), the two remote call
counters of the mock client, and the two test-observable refresh
completion counters (the accountRefreshCallback and keyRefreshCallback
hooks of store_test.go, counted instead of called). -/
structure StoreState where
  snapshot : Snapshot
  keyCache : List (String × List String)
  lastAccountRefresh : Nat
  lastKeyRefresh : List (String × Nat)
  usersGroupsCount : Nat
  keysCount : Nat
  accountRefreshDone : Nat
  keyRefreshDone : Nat
deriving DecidableEq

/-- Last-write-wins search: the index of section 3 is built by inserting
list entries in order, so a lookup returns the last matching entry. -/
def lastMatch {α : Type} (p : α → Bool) (l : List α) : Option α :=
  l.reverse.find? p

/-- Account-cache lookup of a user by name (section 4.1). -/
def lookupUserByName (s : Snapshot) (n : String) : Option User :=
  lastMatch (fun u => decide (u.Name = n)) s.users

/-- Account-cache lookup of a user by UID (section 4.1). -/
def lookupUserByUID (s : Snapshot) (uid : Nat) : Option User :=
  lastMatch (fun u => decide (u.UID = uid)) s.users

/-- Account-cache lookup of a group by name (section 4.1). -/
def lookupGroupByName (s : Snapshot) (n : String) : Option Group :=
  lastMatch (fun g => decide (g.Name = n)) s.groups

/-- Account-cache lookup of a group by GID (section 4.1). -/
def lookupGroupByGID (s : Snapshot) (gid : Nat) : Option Group :=
  lastMatch (fun g => decide (g.GID = gid)) s.groups

/-- Deduplicated union of user and group names of a snapshot
(listNames of section 4.1). -/
def listNames (s : Snapshot) : List String :=
  (s.users.map User.Name ++ s.groups.map Group.Name).dedup

/-- NotFound message for a user-by-name miss, as asserted verbatim in
store_test.go. -/
def userNotFoundMsg (n : String) : String :=
  "unable to find user with name \"" ++ n ++ "\""

/-- NotFound message for a user-by-UID miss, as asserted verbatim in
store_test.go. -/
def uidNotFoundMsg (uid : Nat) : String :=
  "unable to find user with UID " ++ toString uid

/-- NotFound message for a group-by-name miss, as asserted verbatim in
store_test.go. -/
def groupNotFoundMsg (n : String) : String :=
  "unable to find group with name \"" ++ n ++ "\""

/-- NotFound message for a group-by-GID miss, as asserted verbatim in
store_test.go. -/
def gidNotFoundMsg (gid : Nat) : String :=
  "unable to find group with GID " ++ toString gid

/-- Modelled from the spec: the keys-kind NotFound message produced when a
known user has no key record and no refresh could supply one (section 7
taxonomy); the exact wording is not exercised by store_test.go. -/
def keysNotFoundMsg (n : String) : String :=
  "unable to find keys for user \"" ++ n ++ "\""

/-- Modelled from the spec: one per-user key fetch (section 4.4).  On
success the key record is replaced; on failure the cache is left
untouched (stale-while-revalidate).  The per-user refresh timestamp is
recorded on success and failure alike so that the cooldown also throttles
retries against a failing API. -/
def keyFetchOne (api : APIClient) (now : Nat) (s : StoreState) (u : String) : StoreState :=
  match api.AuthorizedKeys s.keysCount u with
  | some ks =>
      { s with keysCount := s.keysCount + 1,
               keyCache := assocSet s.keyCache u ks,
               lastKeyRefresh := assocSet s.lastKeyRefresh u now }
  | none =>
      { s with keysCount := s.keysCount + 1,
               lastKeyRefresh := assocSet s.lastKeyRefresh u now }

/-- Modelled from the spec: a key refresh cycle fetching keys for every
currently known user name (prewarming at startup and after each installed
snapshot, section 4.4); the completion counter models the
keyRefreshCallback hook observed by store_test.go. -/
def keyRefreshAll (api : APIClient) (now : Nat) (s : StoreState) : StoreState :=
  let s1 := (s.snapshot.users.map User.Name).foldl (keyFetchOne api now) s
  { s1 with keyRefreshDone := s1.keyRefreshDone + 1 }

/-- Modelled from the spec: one account refresh attempt (section 4.3).
On success the snapshot is replaced atomically and a key refresh for the
users of the new snapshot follows (behavior pinned by
TestUserOnDemandRefresh and TestGroupOnDemandRefresh call counts); on
failure the snapshot is left untouched.  The refresh timestamp is
recorded on success and failure alike. -/
def accountFetch (api : APIClient) (now : Nat) (s : StoreState) : StoreState :=
  match api.UsersAndGroups s.usersGroupsCount with
  | some snap =>
      keyRefreshAll api now
        { s with usersGroupsCount := s.usersGroupsCount + 1,
                 snapshot := snap,
                 lastAccountRefresh := now,
                 accountRefreshDone := s.accountRefreshDone + 1 }
  | none =>
      { s with usersGroupsCount := s.usersGroupsCount + 1,
               lastAccountRefresh := now,
               accountRefreshDone := s.accountRefreshDone + 1 }

/-- Modelled from the spec: cooldown gate for on-demand account
refreshes.  A trigger is suppressed unless more than the cooldown has
elapsed since the last attempt; the boundary case (exactly the cooldown,
in particular a zero cooldown under a frozen clock) is suppressed, as
pinned by the call counts of TestKeyCooldownAndRefresh. -/
def accountCooldownOpen (cfg : Config) (now : Nat) (s : StoreState) : Bool :=
  decide (cfg.AccountRefreshCooldown < now - s.lastAccountRefresh)

/-- Modelled from the spec: per-user cooldown gate for on-demand key
refreshes (section 4.4), keyed independently per username; a user with no
recorded attempt is always open. -/
def keyCooldownOpen (cfg : Config) (now : Nat) (s : StoreState) (u : String) : Bool :=
  match assocGet s.lastKeyRefresh u with
  | none => true
  | some t => decide (cfg.KeyRefreshCooldown < now - t)

/-- Modelled from the spec: store construction (New).  The first account
population happens eagerly, followed by the key prewarming cycle for all
known users before the store is ready (section 4.4); the prewarm cycle
runs, and its completion hook fires, even when the first account fetch
failed (as observed by testStore in store_test.go). -/
def New (api : APIClient) (t0 : Nat) : StoreState :=
  match api.UsersAndGroups 0 with
  | some snap =>
      keyRefreshAll api t0
        { snapshot := snap, keyCache := [], lastAccountRefresh := t0, lastKeyRefresh := [],
          usersGroupsCount := 1, keysCount := 0, accountRefreshDone := 1, keyRefreshDone := 0 }
  | none =>
      keyRefreshAll api t0
        { snapshot := ⟨[], []⟩, keyCache := [], lastAccountRefresh := t0, lastKeyRefresh := [],
          usersGroupsCount := 1, keysCount := 0, accountRefreshDone := 1, keyRefreshDone := 0 }

/-- Modelled from the spec: UserByName of the provider contract (section
4.5).  A cache hit returns immediately; a miss performs the cooldown-gated
synchronous on-demand account refresh and retries once against the
refreshed snapshot (TestUserOnDemandRefresh). -/
def UserByName (api : APIClient) (cfg : Config) (now : Nat) (s : StoreState) (n : String) :
    Except String User × StoreState :=
  match lookupUserByName s.snapshot n with
  | some u => (.ok u, s)
  | none =>
      if accountCooldownOpen cfg now s then
        match lookupUserByName (accountFetch api now s).snapshot n with
        | some u => (.ok u, accountFetch api now s)
        | none => (.error (userNotFoundMsg n), accountFetch api now s)
      else (.error (userNotFoundMsg n), s)

/-- Modelled from the spec: UserByUID of the provider contract, same
discipline as UserByName. -/
def UserByUID (api : APIClient) (cfg : Config) (now : Nat) (s : StoreState) (uid : Nat) :
    Except String User × StoreState :=
  match lookupUserByUID s.snapshot uid with
  | some u => (.ok u, s)
  | none =>
      if accountCooldownOpen cfg now s then
        match lookupUserByUID (accountFetch api now s).snapshot uid with
        | some u => (.ok u, accountFetch api now s)
        | none => (.error (uidNotFoundMsg uid), accountFetch api now s)
      else (.error (uidNotFoundMsg uid), s)

/-- Modelled from the spec and pinned by TestGroupOnDemandRefresh:
GroupByName of the provider contract.  A cache hit returns immediately; a
miss triggers the cooldown-gated account refresh, but the missing call
itself returns NotFound without retrying — the refreshed snapshot serves
subsequent lookups (the test expects the first post-refresh lookup to
fail and the next one to succeed with no further remote call). -/
def GroupByName (api : APIClient) (cfg : Config) (now : Nat) (s : StoreState) (n : String) :
    Except String Group × StoreState :=
  match lookupGroupByName s.snapshot n with
  | some g => (.ok g, s)
  | none =>
      if accountCooldownOpen cfg now s then
        (.error (groupNotFoundMsg n), accountFetch api now s)
      else (.error (groupNotFoundMsg n), s)

/-- Modelled from the spec: GroupByGID of the provider contract, same
discipline as its sibling GroupByName. -/
def GroupByGID (api : APIClient) (cfg : Config) (now : Nat) (s : StoreState) (gid : Nat) :
    Except String Group × StoreState :=
  match lookupGroupByGID s.snapshot gid with
  | some g => (.ok g, s)
  | none =>
      if accountCooldownOpen cfg now s then
        (.error (gidNotFoundMsg gid), accountFetch api now s)
      else (.error (gidNotFoundMsg gid), s)

/-- Modelled from the spec: Users of the provider contract — the current
snapshot content, no refresh, never a failure (section 4.5). -/
def Users (s : StoreState) : Except String (List User) × StoreState :=
  (.ok s.snapshot.users, s)

/-- Modelled from the spec: Groups of the provider contract — the current
snapshot content, no refresh, never a failure (section 4.5). -/
def Groups (s : StoreState) : Except String (List Group) × StoreState :=
  (.ok s.snapshot.groups, s)

/-- Modelled from the spec: Names of the provider contract — the
deduplicated union of user and group names, no refresh, never a failure
(section 4.5). -/
def Names (s : StoreState) : Except String (List String) × StoreState :=
  (.ok (listNames s.snapshot), s)

/-- Modelled from the spec: IsName of the provider contract. -/
def IsName (s : StoreState) (n : String) : Bool × StoreState :=
  ((listNames s.snapshot).contains n, s)

/-- Modelled from the spec: AuthorizedKeys of the provider contract
(section 4.4).  The username must resolve as a user in the current
snapshot, otherwise the call fails immediately as NotFound without
touching the key cache or the remote API.  For a known user a
cooldown-gated per-user key fetch runs (even when a record is present —
pinned by the call counts of TestKeysBasicCase and TestEmptyKeys), then
the key cache is served; a failed fetch falls back on the cached record
(TestKeyPrewarmingAndCaching). -/
def AuthorizedKeys (api : APIClient) (cfg : Config) (now : Nat) (s : StoreState) (u : String) :
    Except String (List String) × StoreState :=
  match lookupUserByName s.snapshot u with
  | none => (.error (userNotFoundMsg u), s)
  | some _ =>
      match assocGet (if keyCooldownOpen cfg now s u then keyFetchOne api now s u else s).keyCache u with
      | some ks => (.ok ks, if keyCooldownOpen cfg now s u then keyFetchOne api now s u else s)
      | none =>
          (.error (keysNotFoundMsg u), if keyCooldownOpen cfg now s u then keyFetchOne api now s u else s)

/-- First mock user of store_test.go. -/
def mockUser1 : User :=
  { Name := "user1", UID := 4001, GID := 4000, Gecos := "John Doe",
    HomeDirectory := "/home/user1", Shell := "/bin/bash" }

/-- Second mock user of store_test.go. -/
def mockUser2 : User :=
  { Name := "user2", UID := 4002, GID := 4000, Gecos := "Jane Doe",
    HomeDirectory := "/home/user2", Shell := "/bin/zsh" }

/-- First mock group of store_test.go. -/
def mockGroup1 : Group := { Name := "group1", GID := 4000, Members := [] }

/-- Second mock group of store_test.go. -/
def mockGroup2 : Group := { Name := "group2", GID := 4001, Members := ["user2", "user1"] }

/-- The mock account snapshot of store_test.go. -/
def mockSnap : Snapshot := ⟨[mockUser1, mockUser2], [mockGroup1, mockGroup2]⟩

/-- Mock key data: user1 has one key, everyone else none. -/
def mockKeys (n : String) : List String :=
  if n = "user1" then ["key1"] else []

/-- A remote client that always succeeds. -/
def mockAPI : APIClient :=
  ⟨fun _ => some mockSnap, fun _ n => some (mockKeys n)⟩

/-- A remote client whose first account fetch fails and later ones
succeed; key fetches always succeed. -/
def failThenOkAPI : APIClient :=
  ⟨fun i => if i = 0 then none else some mockSnap, fun _ n => some (mockKeys n)⟩

/-- A remote client that always fails. -/
def failAPI : APIClient :=
  ⟨fun _ => none, fun _ _ => none⟩

/-- A remote client whose account fetches succeed and whose key fetches
succeed for the first two calls (the prewarm) and fail afterwards,
mirroring TestKeyPrewarmingAndCaching. -/
def keysFailLaterAPI : APIClient :=
  ⟨fun _ => some mockSnap, fun i n => if i < 2 then some (mockKeys n) else none⟩

/-- Configuration with zero cooldowns (the common store_test.go config). -/
def cfgZeroCooldown : Config := ⟨3600, 0, 3600, 0⟩

/-- Configuration with one-hour cooldowns. -/
def cfgHourCooldown : Config := ⟨3600, 3600, 3600, 3600⟩

/-- Configuration with cooldown two, used for the cooldown scenarios. -/
def cfgCooldownTwo : Config := ⟨3600, 2, 3600, 2⟩

/-- A remote client returning an empty directory, as in
TestEmptyUsersGroups. -/
def emptyAPI : APIClient :=
  ⟨fun _ => some ⟨[], []⟩, fun _ _ => some []⟩

/-- Reading back the binding just written. -/
theorem assocGet_set_self {β : Type} (l : List (String × β)) (u : String) (v : β) :
    assocGet (assocSet l u v) u = some v := by
  simp [assocGet, assocSet, List.find?]

/-- Writing one key leaves every other key unchanged. -/
theorem assocGet_set_ne {β : Type} (l : List (String × β)) (u : String) (v : β) (w : String)
    (h : w ≠ u) : assocGet (assocSet l u v) w = assocGet l w := by
  simp [assocGet, assocSet, List.find?, Ne.symm h]

/-- A single key fetch touches only the key cache, the key call counter
and the per-user timestamps. -/
theorem keyFetchOne_const (api : APIClient) (now : Nat) (s : StoreState) (u : String) :
    (keyFetchOne api now s u).snapshot = s.snapshot ∧
    (keyFetchOne api now s u).usersGroupsCount = s.usersGroupsCount ∧
    (keyFetchOne api now s u).lastAccountRefresh = s.lastAccountRefresh ∧
    (keyFetchOne api now s u).accountRefreshDone = s.accountRefreshDone ∧
    (keyFetchOne api now s u).keyRefreshDone = s.keyRefreshDone ∧
    (keyFetchOne api now s u).keysCount = s.keysCount + 1 := by
  unfold keyFetchOne
  cases api.AuthorizedKeys s.keysCount u <;> simp

/-- A key refresh cycle over a list of names preserves the account data
and performs one key fetch per name. -/
theorem foldKeys_const (api : APIClient) (now : Nat) (L : List String) (s : StoreState) :
    (L.foldl (keyFetchOne api now) s).snapshot = s.snapshot ∧
    (L.foldl (keyFetchOne api now) s).usersGroupsCount = s.usersGroupsCount ∧
    (L.foldl (keyFetchOne api now) s).lastAccountRefresh = s.lastAccountRefresh ∧
    (L.foldl (keyFetchOne api now) s).accountRefreshDone = s.accountRefreshDone ∧
    (L.foldl (keyFetchOne api now) s).keyRefreshDone = s.keyRefreshDone ∧
    (L.foldl (keyFetchOne api now) s).keysCount = s.keysCount + L.length := by
  induction L generalizing s with
  | nil => simp
  | cons a L ih =>
      obtain ⟨h1, h2, h3, h4, h5, h6⟩ := keyFetchOne_const api now s a
      obtain ⟨g1, g2, g3, g4, g5, g6⟩ := ih (keyFetchOne api now s a)
      refine ⟨?_, ?_, ?_, ?_, ?_, ?_⟩ <;> simp only [List.foldl_cons]
      · rw [g1, h1]
      · rw [g2, h2]
      · rw [g3, h3]
      · rw [g4, h4]
      · rw [g5, h5]
      · rw [g6, h6, List.length_cons]; omega

/-- A key fetch for one user leaves the cache entry and the timestamp of
every other user unchanged. -/
theorem keyFetchOne_get_ne (api : APIClient) (now : Nat) (s : StoreState) (u w : String)
    (h : w ≠ u) :
    assocGet (keyFetchOne api now s u).keyCache w = assocGet s.keyCache w ∧
    assocGet (keyFetchOne api now s u).lastKeyRefresh w = assocGet s.lastKeyRefresh w := by
  unfold keyFetchOne
  cases api.AuthorizedKeys s.keysCount u <;>
    simp [assocGet_set_ne _ _ _ _ h]

/-- A key refresh cycle over names not containing a user leaves that
user's cache entry and timestamp unchanged. -/
theorem foldKeys_get_not_mem (api : APIClient) (now : Nat) (L : List String) (s : StoreState)
    (u : String) (h : u ∉ L) :
    assocGet (L.foldl (keyFetchOne api now) s).keyCache u = assocGet s.keyCache u ∧
    assocGet (L.foldl (keyFetchOne api now) s).lastKeyRefresh u = assocGet s.lastKeyRefresh u := by
  induction L generalizing s with
  | nil => exact ⟨rfl, rfl⟩
  | cons a L ih =>
      have hne : u ≠ a := fun he => h (he ▸ List.mem_cons_self a L)
      have hnot : u ∉ L := fun hm => h (List.mem_cons_of_mem a hm)
      obtain ⟨g1, g2⟩ := ih (keyFetchOne api now s a) hnot
      obtain ⟨h1, h2⟩ := keyFetchOne_get_ne api now s a u hne
      exact ⟨by rw [List.foldl_cons, g1, h1], by rw [List.foldl_cons, g2, h2]⟩

/-- When every remote key fetch succeeds with the keys given by f, a key
refresh cycle stores those keys and stamps the refresh time for every
listed user. -/
theorem foldKeys_get_mem (api : APIClient) (now : Nat) (f : String → List String)
    (hapi : ∀ i n, api.AuthorizedKeys i n = some (f n))
    (L : List String) (s : StoreState) (u : String) (h : u ∈ L) :
    assocGet (L.foldl (keyFetchOne api now) s).keyCache u = some (f u) ∧
    assocGet (L.foldl (keyFetchOne api now) s).lastKeyRefresh u = some now := by
  induction L generalizing s with
  | nil => cases h
  | cons a L ih =>
      by_cases hu : u ∈ L
      · exact ih (keyFetchOne api now s a) hu
      · have hua : u = a := by
          rcases List.mem_cons.mp h with h1 | h2
          · exact h1
          · exact absurd h2 hu
        subst hua
        obtain ⟨g1, g2⟩ := foldKeys_get_not_mem api now L (keyFetchOne api now s u) u hu
        rw [List.foldl_cons, g1, g2]
        unfold keyFetchOne
        rw [hapi s.keysCount u]
        exact ⟨assocGet_set_self _ _ _, assocGet_set_self _ _ _⟩

/-- Field accounting of a full key refresh cycle. -/
theorem keyRefreshAll_const (api : APIClient) (now : Nat) (s : StoreState) :
    (keyRefreshAll api now s).snapshot = s.snapshot ∧
    (keyRefreshAll api now s).usersGroupsCount = s.usersGroupsCount ∧
    (keyRefreshAll api now s).lastAccountRefresh = s.lastAccountRefresh ∧
    (keyRefreshAll api now s).accountRefreshDone = s.accountRefreshDone ∧
    (keyRefreshAll api now s).keyRefreshDone = s.keyRefreshDone + 1 ∧
    (keyRefreshAll api now s).keysCount = s.keysCount + s.snapshot.users.length := by
  obtain ⟨h1, h2, h3, h4, h5, h6⟩ :=
    foldKeys_const api now (s.snapshot.users.map User.Name) s
  exact ⟨h1, h2, h3, h4, congrArg (fun x => x + 1) h5,
    h6.trans (by rw [List.length_map])⟩

/-- A failed account fetch only advances the counter, the timestamp and
the completion counter; caches are untouched. -/
theorem accountFetch_fail (api : APIClient) (now : Nat) (s : StoreState)
    (h : api.UsersAndGroups s.usersGroupsCount = none) :
    accountFetch api now s =
      { s with usersGroupsCount := s.usersGroupsCount + 1,
               lastAccountRefresh := now,
               accountRefreshDone := s.accountRefreshDone + 1 } := by
  unfold accountFetch
  rw [h]

/-- Field accounting of a successful account fetch: the snapshot is
installed and one key fetch per user of the new snapshot follows. -/
theorem accountFetch_succ (api : APIClient) (now : Nat) (s : StoreState) (snap : Snapshot)
    (h : api.UsersAndGroups s.usersGroupsCount = some snap) :
    (accountFetch api now s).snapshot = snap ∧
    (accountFetch api now s).usersGroupsCount = s.usersGroupsCount + 1 ∧
    (accountFetch api now s).lastAccountRefresh = now ∧
    (accountFetch api now s).accountRefreshDone = s.accountRefreshDone + 1 ∧
    (accountFetch api now s).keyRefreshDone = s.keyRefreshDone + 1 ∧
    (accountFetch api now s).keysCount = s.keysCount + snap.users.length := by
  unfold accountFetch
  rw [h]
  obtain ⟨h1, h2, h3, h4, h5, h6⟩ := keyRefreshAll_const api now
    { s with usersGroupsCount := s.usersGroupsCount + 1, snapshot := snap,
             lastAccountRefresh := now, accountRefreshDone := s.accountRefreshDone + 1 }
  exact ⟨h1, h2, h3, h4, h5, h6⟩

/-- The account call counter advances by exactly one on every account
fetch attempt, successful or not. -/
theorem accountFetch_ugCount (api : APIClient) (now : Nat) (s : StoreState) :
    (accountFetch api now s).usersGroupsCount = s.usersGroupsCount + 1 := by
  cases h : api.UsersAndGroups s.usersGroupsCount with
  | none => rw [accountFetch_fail api now s h]
  | some snap => exact (accountFetch_succ api now s snap h).2.1

/-- A found user really is a user of the snapshot with the looked-up
name. -/
theorem lookupUserByName_some (s : Snapshot) (n : String) (u : User)
    (h : lookupUserByName s n = some u) : u ∈ s.users ∧ u.Name = n := by
  unfold lookupUserByName lastMatch at h
  refine ⟨List.mem_reverse.mp (List.mem_of_find?_eq_some h), ?_⟩
  have := List.find?_some h
  exact of_decide_eq_true this

/-- If some user of the snapshot has the looked-up name, the lookup
succeeds. -/
theorem lookupUserByName_isSome (s : Snapshot) (n : String) (u : User)
    (hu : u ∈ s.users) (hn : u.Name = n) : (lookupUserByName s n).isSome := by
  unfold lookupUserByName lastMatch
  exact List.find?_isSome.mpr ⟨u, List.mem_reverse.mpr hu, by simp [hn]⟩

/-- The name of a user in the snapshot is a known name. -/
theorem name_mem_listNames (s : Snapshot) (u : User) (hu : u ∈ s.users) :
    u.Name ∈ listNames s := by
  unfold listNames
  rw [List.mem_dedup, List.mem_append]
  exact Or.inl (List.mem_map_of_mem User.Name hu)

/-- A name absent from the known-name set is not a user name of the
snapshot. -/
theorem lookupUserByName_none_of_not_name (s : Snapshot) (n : String)
    (h : n ∉ listNames s) : lookupUserByName s n = none := by
  cases hf : lookupUserByName s n with
  | none => rfl
  | some u =>
      obtain ⟨hu, hn⟩ := lookupUserByName_some s n u hf
      exact absurd (hn ▸ name_mem_listNames s u hu) h

/-- When every remote key fetch succeeds with the keys given by f, a full
key refresh cycle stores those keys, and stamps the time, for every user
name of the current snapshot. -/
theorem keyRefreshAll_get_mem (api : APIClient) (now : Nat) (f : String → List String)
    (hapi : ∀ i n, api.AuthorizedKeys i n = some (f n)) (s : StoreState) (n : String)
    (h : n ∈ s.snapshot.users.map User.Name) :
    assocGet (keyRefreshAll api now s).keyCache n = some (f n) ∧
    assocGet (keyRefreshAll api now s).lastKeyRefresh n = some now :=
  foldKeys_get_mem api now f hapi (s.snapshot.users.map User.Name) s n h

/-- Appending strings appends their character data. -/
theorem string_data_append (a b : String) : (a ++ b).data = a.data ++ b.data := rfl

/-- Two strings differing at some character position are different. -/
theorem string_ne_of_char (a b : String) (i : Nat) (h : a.data[i]? ≠ b.data[i]?) :
    a ≠ b :=
  fun he => h (he ▸ rfl)

/-- Characters pinned inside the user-by-name NotFound message: position
15 reads u (the user kind) and position 25 reads n (the name kind),
whatever the key is. -/
theorem userNotFoundMsg_char (n : String) :
    (userNotFoundMsg n).data[15]? = some 'u' ∧ (userNotFoundMsg n).data[25]? = some 'n' := by
  have h : (userNotFoundMsg n).data =
      "unable to find user with name \"".data ++ (n.data ++ "\"".data) := by
    show ((("unable to find user with name \"" ++ n) ++ "\"").data) = _
    rw [string_data_append, string_data_append, List.append_assoc]
  constructor <;> rw [h, List.getElem?_append_left (by decide)] <;> rfl

/-- Characters pinned inside the user-by-UID NotFound message: position
15 reads u (the user kind) and position 25 reads U (the numeric-id
kind). -/
theorem uidNotFoundMsg_char (i : Nat) :
    (uidNotFoundMsg i).data[15]? = some 'u' ∧ (uidNotFoundMsg i).data[25]? = some 'U' := by
  have h : (uidNotFoundMsg i).data =
      "unable to find user with UID ".data ++ (toString i).data := by
    show (("unable to find user with UID " ++ toString i).data) = _
    rw [string_data_append]
  constructor <;> rw [h, List.getElem?_append_left (by decide)] <;> rfl

/-- Characters pinned inside the group-by-name NotFound message: position
15 reads g (the group kind) and position 26 reads n (the name kind). -/
theorem groupNotFoundMsg_char (n : String) :
    (groupNotFoundMsg n).data[15]? = some 'g' ∧ (groupNotFoundMsg n).data[26]? = some 'n' := by
  have h : (groupNotFoundMsg n).data =
      "unable to find group with name \"".data ++ (n.data ++ "\"".data) := by
    show ((("unable to find group with name \"" ++ n) ++ "\"").data) = _
    rw [string_data_append, string_data_append, List.append_assoc]
  constructor <;> rw [h, List.getElem?_append_left (by decide)] <;> rfl

/-- Characters pinned inside the group-by-GID NotFound message: position
15 reads g (the group kind) and position 26 reads G (the numeric-id
kind). -/
theorem gidNotFoundMsg_char (i : Nat) :
    (gidNotFoundMsg i).data[15]? = some 'g' ∧ (gidNotFoundMsg i).data[26]? = some 'G' := by
  have h : (gidNotFoundMsg i).data =
      "unable to find group with GID ".data ++ (toString i).data := by
    show (("unable to find group with GID " ++ toString i).data) = _
    rw [string_data_append]
  constructor <;> rw [h, List.getElem?_append_left (by decide)] <;> rfl

/-- Character pinned inside the keys NotFound message: position 15 reads
k (the keys kind). -/
theorem keysNotFoundMsg_char (n : String) :
    (keysNotFoundMsg n).data[15]? = some 'k' := by
  have h : (keysNotFoundMsg n).data =
      "unable to find keys for user \"".data ++ (n.data ++ "\"".data) := by
    show ((("unable to find keys for user \"" ++ n) ++ "\"").data) = _
    rw [string_data_append, string_data_append, List.append_assoc]
  rw [h, List.getElem?_append_left (by decide)]
  rfl

/-- C2: for every username that is not a known account name in the
current snapshot, AuthorizedKeys fails with a NotFound error immediately
and returns the store state unchanged — in particular the key cache and
the remote key-fetch call count are exactly as before, so no key-cache
write and no remote key fetch happens. -/
theorem c2_keys_unknown_user (api : APIClient) (cfg : Config) (now : Nat)
    (s : StoreState) (u : String) (h : u ∉ listNames s.snapshot) :
    AuthorizedKeys api cfg now s u = (.error (userNotFoundMsg u), s) := by
  have hl := lookupUserByName_none_of_not_name s.snapshot u h
  unfold AuthorizedKeys
  rw [hl]

/-- Witness for C2: user3 is not a known name of the mock snapshot, and
the call fails without touching the state (the counts in particular). -/
theorem c2_keys_unknown_user_witness :
    AuthorizedKeys mockAPI cfgHourCooldown 5 (New mockAPI 0) "user3" =
      (.error "unable to find user with name \"user3\"", New mockAPI 0) :=
  c2_keys_unknown_user mockAPI cfgHourCooldown 5 (New mockAPI 0) "user3" (by decide)

/-- C6: Users, Groups and Names return the current snapshot contents with
the state unchanged (so the remote call counters are unchanged and no
refresh is triggered), they always succeed, and on an empty snapshot they
return empty results rather than an error. -/
theorem c6_listing_ops (s : StoreState) :
    Users s = (.ok s.snapshot.users, s) ∧
    Groups s = (.ok s.snapshot.groups, s) ∧
    Names s = (.ok (listNames s.snapshot), s) ∧
    (s.snapshot.users = [] → s.snapshot.groups = [] →
      Users s = (.ok [], s) ∧ Groups s = (.ok [], s) ∧ Names s = (.ok [], s)) := by
  refine ⟨rfl, rfl, rfl, fun hu hg => ⟨?_, ?_, ?_⟩⟩
  · simp [Users, hu]
  · simp [Groups, hg]
  · simp [Names, listNames, hu, hg]

/-- Witness for C6: the store built over an empty directory answers Names
with an empty list and no error. -/
theorem c6_listing_ops_witness :
    Names (New emptyAPI 0) = (.ok [], New emptyAPI 0) :=
  ((c6_listing_ops (New emptyAPI 0)).2.2.2 rfl rfl).2.2

/-- C7: Names returns exactly the union of the user names and the group
names of the current snapshot, with no duplicate entries. -/
theorem c7_names_union (s : StoreState) :
    (Names s).1 = .ok (listNames s.snapshot) ∧
    (listNames s.snapshot).Nodup ∧
    ∀ x, x ∈ listNames s.snapshot ↔
      x ∈ s.snapshot.users.map User.Name ∨ x ∈ s.snapshot.groups.map Group.Name := by
  refine ⟨rfl, List.nodup_dedup _, fun x => ?_⟩
  unfold listNames
  rw [List.mem_dedup, List.mem_append]

/-- C1 counterexample: the claim says every miss-triggered on-demand
refresh is followed by one retry, so a lookup fails only if the key is
still absent from the refreshed snapshot.  Concretely (the scenario of
TestGroupOnDemandRefresh): after a failed first population, a GroupByName
miss with an open cooldown triggers an account refresh that succeeds and
installs a snapshot containing group1, yet the call still returns
NotFound — the refreshed snapshot only serves the next call. -/
theorem c1_counterexample :
    (GroupByName failThenOkAPI cfgZeroCooldown 1 (New failThenOkAPI 0) "group1").1 =
      .error "unable to find group with name \"group1\"" ∧
    lookupGroupByName
      ((GroupByName failThenOkAPI cfgZeroCooldown 1 (New failThenOkAPI 0) "group1").2).snapshot
      "group1" = some mockGroup1 ∧
    (GroupByName failThenOkAPI cfgZeroCooldown 2
        ((GroupByName failThenOkAPI cfgZeroCooldown 1 (New failThenOkAPI 0) "group1").2)
        "group1").1 = .ok mockGroup1 :=
  ⟨rfl, rfl, rfl⟩

/-- C1 amended: a cache hit returns immediately for all four lookups.  On
a miss with the cooldown open, UserByName and UserByUID perform the
account refresh synchronously and retry once against the refreshed
snapshot, failing NotFound only if the key is still absent; GroupByName
and GroupByGID trigger the same synchronous refresh (the refreshed
snapshot is installed for subsequent lookups) but return NotFound without
retrying.  On a miss with the cooldown closed, the lookups fail NotFound
immediately with the state unchanged. -/
theorem c1_amended_lookup_discipline (api : APIClient) (cfg : Config) (now : Nat)
    (s : StoreState) :
    (∀ n u, lookupUserByName s.snapshot n = some u →
       UserByName api cfg now s n = (.ok u, s)) ∧
    (∀ uid u, lookupUserByUID s.snapshot uid = some u →
       UserByUID api cfg now s uid = (.ok u, s)) ∧
    (∀ n g, lookupGroupByName s.snapshot n = some g →
       GroupByName api cfg now s n = (.ok g, s)) ∧
    (∀ gid g, lookupGroupByGID s.snapshot gid = some g →
       GroupByGID api cfg now s gid = (.ok g, s)) ∧
    (∀ n u, lookupUserByName s.snapshot n = none → accountCooldownOpen cfg now s = true →
       lookupUserByName (accountFetch api now s).snapshot n = some u →
       UserByName api cfg now s n = (.ok u, accountFetch api now s)) ∧
    (∀ n, lookupUserByName s.snapshot n = none → accountCooldownOpen cfg now s = true →
       lookupUserByName (accountFetch api now s).snapshot n = none →
       UserByName api cfg now s n = (.error (userNotFoundMsg n), accountFetch api now s)) ∧
    (∀ uid u, lookupUserByUID s.snapshot uid = none → accountCooldownOpen cfg now s = true →
       lookupUserByUID (accountFetch api now s).snapshot uid = some u →
       UserByUID api cfg now s uid = (.ok u, accountFetch api now s)) ∧
    (∀ n, lookupGroupByName s.snapshot n = none → accountCooldownOpen cfg now s = true →
       GroupByName api cfg now s n = (.error (groupNotFoundMsg n), accountFetch api now s)) ∧
    (∀ gid, lookupGroupByGID s.snapshot gid = none → accountCooldownOpen cfg now s = true →
       GroupByGID api cfg now s gid = (.error (gidNotFoundMsg gid), accountFetch api now s)) ∧
    (∀ n, lookupUserByName s.snapshot n = none → accountCooldownOpen cfg now s = false →
       UserByName api cfg now s n = (.error (userNotFoundMsg n), s)) ∧
    (∀ n, lookupGroupByName s.snapshot n = none → accountCooldownOpen cfg now s = false →
       GroupByName api cfg now s n = (.error (groupNotFoundMsg n), s)) := by
  refine ⟨?_, ?_, ?_, ?_, ?_, ?_, ?_, ?_, ?_, ?_, ?_⟩
  · intro n u h1
    simp [UserByName, h1]
  · intro uid u h1
    simp [UserByUID, h1]
  · intro n g h1
    simp [GroupByName, h1]
  · intro gid g h1
    simp [GroupByGID, h1]
  · intro n u h1 h2 h3
    simp [UserByName, h1, h2, h3]
  · intro n h1 h2 h3
    simp [UserByName, h1, h2, h3]
  · intro uid u h1 h2 h3
    simp [UserByUID, h1, h2, h3]
  · intro n h1 h2
    simp [GroupByName, h1, h2]
  · intro gid h1 h2
    simp [GroupByGID, h1, h2]
  · intro n h1 h2
    simp [UserByName, h1, h2]
  · intro n h1 h2
    simp [GroupByName, h1, h2]

/-- Witness for the amended C1: in the TestUserOnDemandRefresh scenario a
UserByName miss with an open cooldown refreshes synchronously and the
retry returns the freshly fetched user1 record. -/
theorem c1_amended_lookup_discipline_witness :
    UserByName failThenOkAPI cfgZeroCooldown 1 (New failThenOkAPI 0) "user1" =
      (.ok mockUser1, accountFetch failThenOkAPI 1 (New failThenOkAPI 0)) :=
  (c1_amended_lookup_discipline failThenOkAPI cfgZeroCooldown 1
      (New failThenOkAPI 0)).2.2.2.2.1 "user1" mockUser1 rfl rfl rfl

/-- C3: a failed account fetch leaves the snapshot and the key cache
untouched, and a subsequent lookup of a cached user still succeeds with
the cached record; a failed key fetch with a cached record present
returns the cached record and leaves the key cache untouched; a key
refresh failure propagates to the on-demand caller only when there was no
cached record to fall back on. -/
theorem c3_stale_while_revalidate (api : APIClient) (cfg : Config) (now now2 : Nat)
    (s : StoreState) :
    (api.UsersAndGroups s.usersGroupsCount = none →
       (accountFetch api now s).snapshot = s.snapshot ∧
       (accountFetch api now s).keyCache = s.keyCache) ∧
    (∀ n u, api.UsersAndGroups s.usersGroupsCount = none →
       lookupUserByName s.snapshot n = some u →
       UserByName api cfg now2 (accountFetch api now s) n = (.ok u, accountFetch api now s)) ∧
    (∀ u u0 ks, api.AuthorizedKeys s.keysCount u = none →
       lookupUserByName s.snapshot u = some u0 → assocGet s.keyCache u = some ks →
       (AuthorizedKeys api cfg now s u).1 = .ok ks ∧
       (AuthorizedKeys api cfg now s u).2.keyCache = s.keyCache) ∧
    (∀ u u0, api.AuthorizedKeys s.keysCount u = none →
       lookupUserByName s.snapshot u = some u0 → assocGet s.keyCache u = none →
       keyCooldownOpen cfg now s u = true →
       (AuthorizedKeys api cfg now s u).1 = .error (keysNotFoundMsg u)) := by
  refine ⟨?_, ?_, ?_, ?_⟩
  · intro h
    rw [accountFetch_fail api now s h]
    exact ⟨rfl, rfl⟩
  · intro n u hf hl
    rw [accountFetch_fail api now s hf]
    simp [UserByName, hl]
  · intro u u0 ks hk hl hc
    by_cases hco : keyCooldownOpen cfg now s u = true <;>
      simp [AuthorizedKeys, hl, hco, keyFetchOne, hk, hc]
  · intro u u0 hk hl hc hco
    simp [AuthorizedKeys, hl, hco, keyFetchOne, hk, hc]

/-- Witness for C3: in the TestKeyPrewarmingAndCaching scenario the key
API starts failing after the prewarm, yet AuthorizedKeys for user1 still
returns the prewarmed keys. -/
theorem c3_stale_while_revalidate_witness :
    (AuthorizedKeys keysFailLaterAPI cfgZeroCooldown 5 (New keysFailLaterAPI 0) "user1").1 =
      .ok ["key1"] :=
  ((c3_stale_while_revalidate keysFailLaterAPI cfgZeroCooldown 5 5
      (New keysFailLaterAPI 0)).2.2.1 "user1" mockUser1 ["key1"] rfl rfl rfl).1

/-- C4 counterexample: the claim says repeated lookups of a present key
never trigger additional remote fetches.  But with the key record for
user1 present in the cache, a single AuthorizedKeys call made one clock
unit later (past the zero cooldown) performs one more remote key fetch,
exactly as the call counts of TestKeysBasicCase demand (prewarm of two
plus one fetch per lookup). -/
theorem c4_counterexample :
    assocGet (New mockAPI 0).keyCache "user1" = some ["key1"] ∧
    (AuthorizedKeys mockAPI cfgZeroCooldown 1 (New mockAPI 0) "user1").1 = .ok ["key1"] ∧
    (AuthorizedKeys mockAPI cfgZeroCooldown 1 (New mockAPI 0) "user1").2.keysCount =
      (New mockAPI 0).keysCount + 1 :=
  ⟨rfl, rfl, rfl⟩

/-- C4 amended: repeated user and group lookups of a present key are pure
cache reads and change nothing, and an AuthorizedKeys hit within the key
cooldown changes nothing; outside the cooldown an AuthorizedKeys call
performs exactly one remote key re-fetch (stale-while-revalidate), which
is where the original claim fails. -/
theorem c4_amended_hit_idempotence (api : APIClient) (cfg : Config) (now : Nat)
    (s : StoreState) :
    (∀ n u, lookupUserByName s.snapshot n = some u →
       UserByName api cfg now s n = (.ok u, s)) ∧
    (∀ uid u, lookupUserByUID s.snapshot uid = some u →
       UserByUID api cfg now s uid = (.ok u, s)) ∧
    (∀ n g, lookupGroupByName s.snapshot n = some g →
       GroupByName api cfg now s n = (.ok g, s)) ∧
    (∀ gid g, lookupGroupByGID s.snapshot gid = some g →
       GroupByGID api cfg now s gid = (.ok g, s)) ∧
    (∀ u u0 ks, lookupUserByName s.snapshot u = some u0 →
       keyCooldownOpen cfg now s u = false → assocGet s.keyCache u = some ks →
       AuthorizedKeys api cfg now s u = (.ok ks, s)) ∧
    (∀ u u0, lookupUserByName s.snapshot u = some u0 →
       keyCooldownOpen cfg now s u = true →
       (AuthorizedKeys api cfg now s u).2.keysCount = s.keysCount + 1) := by
  refine ⟨?_, ?_, ?_, ?_, ?_, ?_⟩
  · intro n u h1
    simp [UserByName, h1]
  · intro uid u h1
    simp [UserByUID, h1]
  · intro n g h1
    simp [GroupByName, h1]
  · intro gid g h1
    simp [GroupByGID, h1]
  · intro u u0 ks h1 h2 h3
    simp [AuthorizedKeys, h1, h2, h3]
  · intro u u0 h1 h2
    have hc := (keyFetchOne_const api now s u).2.2.2.2.2
    cases hrec : assocGet (keyFetchOne api now s u).keyCache u <;>
      simp [AuthorizedKeys, h1, h2, hrec, hc]

/-- Witness for the amended C4: at the construction instant (within the
cooldown) an AuthorizedKeys hit for user1 returns the prewarmed keys with
the state, and in particular the remote call counters, unchanged. -/
theorem c4_amended_hit_idempotence_witness :
    AuthorizedKeys mockAPI cfgZeroCooldown 0 (New mockAPI 0) "user1" =
      (.ok ["key1"], New mockAPI 0) :=
  (c4_amended_hit_idempotence mockAPI cfgZeroCooldown 0
      (New mockAPI 0)).2.2.2.2.1 "user1" mockUser1 ["key1"] rfl rfl rfl

/-- C5: when the first account fetch succeeds and the key fetches
succeed, construction installs the first snapshot and prewarms the key
cache with exactly one key fetch per known user; immediately after
construction (same clock instant), AuthorizedKeys for every user known at
construction time returns its cached keys with the state — in particular
the remote key-fetch counter — unchanged. -/
theorem c5_prewarming (api : APIClient) (cfg : Config) (t0 : Nat) (snap : Snapshot)
    (f : String → List String)
    (hA : api.UsersAndGroups 0 = some snap)
    (hK : ∀ i n, api.AuthorizedKeys i n = some (f n)) :
    (New api t0).keysCount = snap.users.length ∧
    (New api t0).snapshot = snap ∧
    ∀ u, u ∈ snap.users →
      assocGet (New api t0).keyCache u.Name = some (f u.Name) ∧
      AuthorizedKeys api cfg t0 (New api t0) u.Name = (.ok (f u.Name), New api t0) := by
  have hNew : New api t0 = keyRefreshAll api t0
      { snapshot := snap, keyCache := [], lastAccountRefresh := t0, lastKeyRefresh := [],
        usersGroupsCount := 1, keysCount := 0, accountRefreshDone := 1, keyRefreshDone := 0 } := by
    unfold New
    rw [hA]
  obtain ⟨e1, e2, e3, e4, e5, e6⟩ := keyRefreshAll_const api t0
    { snapshot := snap, keyCache := [], lastAccountRefresh := t0, lastKeyRefresh := [],
      usersGroupsCount := 1, keysCount := 0, accountRefreshDone := 1, keyRefreshDone := 0 }
  refine ⟨by rw [hNew, e6]; simp, by rw [hNew, e1], ?_⟩
  intro u hu
  have hmem : u.Name ∈
      (StoreState.mk snap [] t0 [] 1 0 1 0).snapshot.users.map User.Name :=
    List.mem_map_of_mem User.Name hu
  obtain ⟨g1, g2⟩ := keyRefreshAll_get_mem api t0 f hK
    { snapshot := snap, keyCache := [], lastAccountRefresh := t0, lastKeyRefresh := [],
      usersGroupsCount := 1, keysCount := 0, accountRefreshDone := 1, keyRefreshDone := 0 }
    u.Name hmem
  have hcache : assocGet (New api t0).keyCache u.Name = some (f u.Name) := by
    rw [hNew]; exact g1
  refine ⟨hcache, ?_⟩
  have hsnap : (New api t0).snapshot = snap := by rw [hNew, e1]
  have hfind : (lookupUserByName (New api t0).snapshot u.Name).isSome := by
    rw [hsnap]; exact lookupUserByName_isSome snap u.Name u hu rfl
  cases hlk : lookupUserByName (New api t0).snapshot u.Name with
  | none => rw [hlk] at hfind; simp at hfind
  | some u0 =>
      have hlkr : assocGet (New api t0).lastKeyRefresh u.Name = some t0 := by
        rw [hNew]; exact g2
      have hco : keyCooldownOpen cfg t0 (New api t0) u.Name = false := by
        unfold keyCooldownOpen
        rw [hlkr]
        simp [Nat.sub_self]
      simp [AuthorizedKeys, hlk, hco, hcache]

/-- Witness for C5: immediately after construction over the mock
directory, user2 was prewarmed and its (empty) key list is served with no
state change. -/
theorem c5_prewarming_witness :
    AuthorizedKeys mockAPI cfgZeroCooldown 0 (New mockAPI 0) "user2" =
      (.ok [], New mockAPI 0) :=
  ((c5_prewarming mockAPI cfgZeroCooldown 0 mockSnap mockKeys rfl
      (fun _ _ => rfl)).2.2 mockUser2 (by decide)).2

/-- C8: cooldown bounds remote calls per refresh class and key.  For the
account class: a first miss with the cooldown open performs one remote
fetch; a second miss within the cooldown is suppressed, fails NotFound
immediately and changes nothing; a third miss after the cooldown has
expired performs exactly one more fetch.  For the key class the same
discipline holds per username, counted on the key-fetch counter. -/
theorem c8_cooldown_bounds_fetches (api : APIClient) (cfg : Config) (s : StoreState)
    (t1 t2 t3 : Nat) :
    (∀ n, lookupUserByName s.snapshot n = none →
       api.UsersAndGroups s.usersGroupsCount = none →
       cfg.AccountRefreshCooldown < t1 - s.lastAccountRefresh →
       t2 - t1 < cfg.AccountRefreshCooldown →
       cfg.AccountRefreshCooldown < t3 - t1 →
       UserByName api cfg t1 s n =
         (.error (userNotFoundMsg n),
          { s with usersGroupsCount := s.usersGroupsCount + 1,
                   lastAccountRefresh := t1,
                   accountRefreshDone := s.accountRefreshDone + 1 }) ∧
       UserByName api cfg t2
           { s with usersGroupsCount := s.usersGroupsCount + 1,
                    lastAccountRefresh := t1,
                    accountRefreshDone := s.accountRefreshDone + 1 } n =
         (.error (userNotFoundMsg n),
          { s with usersGroupsCount := s.usersGroupsCount + 1,
                   lastAccountRefresh := t1,
                   accountRefreshDone := s.accountRefreshDone + 1 }) ∧
       (UserByName api cfg t3
           { s with usersGroupsCount := s.usersGroupsCount + 1,
                    lastAccountRefresh := t1,
                    accountRefreshDone := s.accountRefreshDone + 1 } n).2.usersGroupsCount =
         s.usersGroupsCount + 2) ∧
    (∀ u u0 tk, lookupUserByName s.snapshot u = some u0 →
       assocGet s.keyCache u = none →
       (∀ i, api.AuthorizedKeys i u = none) →
       assocGet s.lastKeyRefresh u = some tk →
       cfg.KeyRefreshCooldown < t1 - tk →
       t2 - t1 < cfg.KeyRefreshCooldown →
       cfg.KeyRefreshCooldown < t3 - t1 →
       AuthorizedKeys api cfg t1 s u =
         (.error (keysNotFoundMsg u),
          { s with keysCount := s.keysCount + 1,
                   lastKeyRefresh := assocSet s.lastKeyRefresh u t1 }) ∧
       AuthorizedKeys api cfg t2
           { s with keysCount := s.keysCount + 1,
                    lastKeyRefresh := assocSet s.lastKeyRefresh u t1 } u =
         (.error (keysNotFoundMsg u),
          { s with keysCount := s.keysCount + 1,
                   lastKeyRefresh := assocSet s.lastKeyRefresh u t1 }) ∧
       (AuthorizedKeys api cfg t3
           { s with keysCount := s.keysCount + 1,
                    lastKeyRefresh := assocSet s.lastKeyRefresh u t1 } u).2.keysCount =
         s.keysCount + 2) := by
  constructor
  · intro n habs hfail h1 h2 h3
    have hopen1 : accountCooldownOpen cfg t1 s = true := by
      unfold accountCooldownOpen; exact decide_eq_true h1
    have hfetch := accountFetch_fail api t1 s hfail
    have hclosed : accountCooldownOpen cfg t2
        { s with usersGroupsCount := s.usersGroupsCount + 1,
                 lastAccountRefresh := t1,
                 accountRefreshDone := s.accountRefreshDone + 1 } = false := by
      unfold accountCooldownOpen; exact decide_eq_false (Nat.lt_asymm h2)
    have hopen3 : accountCooldownOpen cfg t3
        { s with usersGroupsCount := s.usersGroupsCount + 1,
                 lastAccountRefresh := t1,
                 accountRefreshDone := s.accountRefreshDone + 1 } = true := by
      unfold accountCooldownOpen; exact decide_eq_true h3
    refine ⟨?_, ?_, ?_⟩
    · simp [UserByName, habs, hopen1, hfetch]
    · simp [UserByName, habs, hclosed]
    · have hstep : (UserByName api cfg t3
          { s with usersGroupsCount := s.usersGroupsCount + 1,
                   lastAccountRefresh := t1,
                   accountRefreshDone := s.accountRefreshDone + 1 } n).2 =
          accountFetch api t3
            { s with usersGroupsCount := s.usersGroupsCount + 1,
                     lastAccountRefresh := t1,
                     accountRefreshDone := s.accountRefreshDone + 1 } := by
        cases hr : lookupUserByName (accountFetch api t3
            { s with usersGroupsCount := s.usersGroupsCount + 1,
                     lastAccountRefresh := t1,
                     accountRefreshDone := s.accountRefreshDone + 1 }).snapshot n <;>
          simp [UserByName, habs, hopen3, hr]
      rw [hstep, accountFetch_ugCount]
  · intro u u0 tk hl hrec hkfail hlast hk1 hk2 hk3
    have hco1 : keyCooldownOpen cfg t1 s u = true := by
      unfold keyCooldownOpen; rw [hlast]; exact decide_eq_true hk1
    have hfetch1 : keyFetchOne api t1 s u =
        { s with keysCount := s.keysCount + 1,
                 lastKeyRefresh := assocSet s.lastKeyRefresh u t1 } := by
      unfold keyFetchOne; rw [hkfail s.keysCount]
    have hco2 : keyCooldownOpen cfg t2
        { s with keysCount := s.keysCount + 1,
                 lastKeyRefresh := assocSet s.lastKeyRefresh u t1 } u = false := by
      unfold keyCooldownOpen
      rw [show assocGet
          ({ s with keysCount := s.keysCount + 1,
                    lastKeyRefresh := assocSet s.lastKeyRefresh u t1 } :
            StoreState).lastKeyRefresh u = some t1 from assocGet_set_self _ _ _]
      exact decide_eq_false (Nat.lt_asymm hk2)
    have hco3 : keyCooldownOpen cfg t3
        { s with keysCount := s.keysCount + 1,
                 lastKeyRefresh := assocSet s.lastKeyRefresh u t1 } u = true := by
      unfold keyCooldownOpen
      rw [show assocGet
          ({ s with keysCount := s.keysCount + 1,
                    lastKeyRefresh := assocSet s.lastKeyRefresh u t1 } :
            StoreState).lastKeyRefresh u = some t1 from assocGet_set_self _ _ _]
      exact decide_eq_true hk3
    refine ⟨?_, ?_, ?_⟩
    · simp [AuthorizedKeys, hl, hco1, hfetch1, hrec]
    · simp [AuthorizedKeys, hl, hco2, hrec]
    · simp [AuthorizedKeys, hl, hco3, keyFetchOne, hkfail, hrec]

/-- Witness for C8: against a permanently failing directory with cooldown
two, misses at times three, four and six perform one, zero and one more
account fetch respectively. -/
theorem c8_cooldown_bounds_fetches_witness :
    (UserByName failAPI cfgCooldownTwo 6
        { New failAPI 0 with
            usersGroupsCount := (New failAPI 0).usersGroupsCount + 1,
            lastAccountRefresh := 3,
            accountRefreshDone := (New failAPI 0).accountRefreshDone + 1 }
        "user1").2.usersGroupsCount = (New failAPI 0).usersGroupsCount + 2 :=
  ((c8_cooldown_bounds_fetches failAPI cfgCooldownTwo (New failAPI 0) 3 4 6).1 "user1"
      rfl rfl (by decide) (by decide) (by decide)).2.2

/-- C9 counterexample: the claim says a failed AuthorizedKeys for an
unknown user reports a keys-kind failure.  Concretely (the user3 case of
TestKeysBasicCase), the failure message is exactly the user-by-name
message — identical to the one UserByName produces and different from the
keys-kind message — so the keys kind is not what is reported for an
unknown user. -/
theorem c9_counterexample :
    (AuthorizedKeys mockAPI cfgHourCooldown 0 (New mockAPI 0) "user3").1 =
      .error "unable to find user with name \"user3\"" ∧
    (UserByName mockAPI cfgHourCooldown 0 (New mockAPI 0) "user3").1 =
      .error "unable to find user with name \"user3\"" ∧
    userNotFoundMsg "user3" ≠ keysNotFoundMsg "user3" :=
  ⟨rfl, rfl, by decide⟩

/-- C9 amended: every NotFound failure of the five lookups carries a
fixed message that embeds the lookup key verbatim, and the message forms
of the different kinds (user name, user UID, group name, group GID, keys)
are pairwise distinct for all keys; however a failed AuthorizedKeys for
an unknown user reports the user-by-name failure for that username — the
keys-kind message arises only for a known user whose keys are
unavailable. -/
theorem c9_amended_error_messages (api : APIClient) (cfg : Config) (now : Nat)
    (s : StoreState) :
    (∀ n r, (UserByName api cfg now s n).1 = .error r → r = userNotFoundMsg n) ∧
    (∀ uid r, (UserByUID api cfg now s uid).1 = .error r → r = uidNotFoundMsg uid) ∧
    (∀ n r, (GroupByName api cfg now s n).1 = .error r → r = groupNotFoundMsg n) ∧
    (∀ gid r, (GroupByGID api cfg now s gid).1 = .error r → r = gidNotFoundMsg gid) ∧
    (∀ u r, (AuthorizedKeys api cfg now s u).1 = .error r →
       r = userNotFoundMsg u ∨ r = keysNotFoundMsg u) ∧
    (∀ u, lookupUserByName s.snapshot u = none →
       (AuthorizedKeys api cfg now s u).1 = .error (userNotFoundMsg u)) ∧
    (∀ n, (userNotFoundMsg n).data =
       "unable to find user with name \"".data ++ (n.data ++ "\"".data)) ∧
    (∀ i, (uidNotFoundMsg i).data =
       "unable to find user with UID ".data ++ (toString i).data) ∧
    (∀ n, (groupNotFoundMsg n).data =
       "unable to find group with name \"".data ++ (n.data ++ "\"".data)) ∧
    (∀ i, (gidNotFoundMsg i).data =
       "unable to find group with GID ".data ++ (toString i).data) ∧
    (∀ n, (keysNotFoundMsg n).data =
       "unable to find keys for user \"".data ++ (n.data ++ "\"".data)) ∧
    (∀ n m, userNotFoundMsg n ≠ groupNotFoundMsg m) ∧
    (∀ n m, userNotFoundMsg n ≠ keysNotFoundMsg m) ∧
    (∀ n m, groupNotFoundMsg n ≠ keysNotFoundMsg m) ∧
    (∀ n i, userNotFoundMsg n ≠ uidNotFoundMsg i) ∧
    (∀ n i, groupNotFoundMsg n ≠ gidNotFoundMsg i) ∧
    (∀ n i, userNotFoundMsg n ≠ gidNotFoundMsg i) ∧
    (∀ n i, groupNotFoundMsg n ≠ uidNotFoundMsg i) ∧
    (∀ i j, uidNotFoundMsg i ≠ gidNotFoundMsg j) ∧
    (∀ n i, keysNotFoundMsg n ≠ uidNotFoundMsg i) ∧
    (∀ n i, keysNotFoundMsg n ≠ gidNotFoundMsg i) := by
  refine ⟨?_, ?_, ?_, ?_, ?_, ?_, ?_, ?_, ?_, ?_, ?_, ?_, ?_, ?_, ?_, ?_, ?_, ?_, ?_, ?_, ?_⟩
  · intro n r h
    cases hl : lookupUserByName s.snapshot n with
    | some u => simp [UserByName, hl] at h
    | none =>
        by_cases hc : accountCooldownOpen cfg now s = true
        · cases hr : lookupUserByName (accountFetch api now s).snapshot n with
          | some u => simp [UserByName, hl, hc, hr] at h
          | none => simp [UserByName, hl, hc, hr] at h; exact h.symm
        · simp [UserByName, hl, hc] at h; exact h.symm
  · intro uid r h
    cases hl : lookupUserByUID s.snapshot uid with
    | some u => simp [UserByUID, hl] at h
    | none =>
        by_cases hc : accountCooldownOpen cfg now s = true
        · cases hr : lookupUserByUID (accountFetch api now s).snapshot uid with
          | some u => simp [UserByUID, hl, hc, hr] at h
          | none => simp [UserByUID, hl, hc, hr] at h; exact h.symm
        · simp [UserByUID, hl, hc] at h; exact h.symm
  · intro n r h
    cases hl : lookupGroupByName s.snapshot n with
    | some g => simp [GroupByName, hl] at h
    | none =>
        by_cases hc : accountCooldownOpen cfg now s = true <;>
          [skip; skip] <;> simp [GroupByName, hl, hc] at h <;> exact h.symm
  · intro gid r h
    cases hl : lookupGroupByGID s.snapshot gid with
    | some g => simp [GroupByGID, hl] at h
    | none =>
        by_cases hc : accountCooldownOpen cfg now s = true <;>
          [skip; skip] <;> simp [GroupByGID, hl, hc] at h <;> exact h.symm
  · intro u r h
    cases hl : lookupUserByName s.snapshot u with
    | none => simp [AuthorizedKeys, hl] at h; exact Or.inl h.symm
    | some u0 =>
        cases hrec : assocGet
            (if keyCooldownOpen cfg now s u then keyFetchOne api now s u else s).keyCache u with
        | some ks => simp [AuthorizedKeys, hl, hrec] at h
        | none => simp [AuthorizedKeys, hl, hrec] at h; exact Or.inr h.symm
  · intro u hl
    simp [AuthorizedKeys, hl]
  · intro n
    show ((("unable to find user with name \"" ++ n) ++ "\"").data) = _
    rw [string_data_append, string_data_append, List.append_assoc]
  · intro i
    exact string_data_append _ _
  · intro n
    show ((("unable to find group with name \"" ++ n) ++ "\"").data) = _
    rw [string_data_append, string_data_append, List.append_assoc]
  · intro i
    exact string_data_append _ _
  · intro n
    show ((("unable to find keys for user \"" ++ n) ++ "\"").data) = _
    rw [string_data_append, string_data_append, List.append_assoc]
  · intro n m
    refine string_ne_of_char _ _ 15 ?_
    rw [(userNotFoundMsg_char n).1, (groupNotFoundMsg_char m).1]
    decide
  · intro n m
    refine string_ne_of_char _ _ 15 ?_
    rw [(userNotFoundMsg_char n).1, keysNotFoundMsg_char m]
    decide
  · intro n m
    refine string_ne_of_char _ _ 15 ?_
    rw [(groupNotFoundMsg_char n).1, keysNotFoundMsg_char m]
    decide
  · intro n i
    refine string_ne_of_char _ _ 25 ?_
    rw [(userNotFoundMsg_char n).2, (uidNotFoundMsg_char i).2]
    decide
  · intro n i
    refine string_ne_of_char _ _ 26 ?_
    rw [(groupNotFoundMsg_char n).2, (gidNotFoundMsg_char i).2]
    decide
  · intro n i
    refine string_ne_of_char _ _ 15 ?_
    rw [(userNotFoundMsg_char n).1, (gidNotFoundMsg_char i).1]
    decide
  · intro n i
    refine string_ne_of_char _ _ 15 ?_
    rw [(groupNotFoundMsg_char n).1, (uidNotFoundMsg_char i).1]
    decide
  · intro i j
    refine string_ne_of_char _ _ 15 ?_
    rw [(uidNotFoundMsg_char i).1, (gidNotFoundMsg_char j).1]
    decide
  · intro n i
    refine string_ne_of_char _ _ 15 ?_
    rw [keysNotFoundMsg_char n, (uidNotFoundMsg_char i).1]
    decide
  · intro n i
    refine string_ne_of_char _ _ 15 ?_
    rw [keysNotFoundMsg_char n, (gidNotFoundMsg_char i).1]
    decide

/-- Witness for the amended C9: for the unknown user3, AuthorizedKeys
fails with exactly the user-by-name message. -/
theorem c9_amended_error_messages_witness :
    (AuthorizedKeys mockAPI cfgHourCooldown 0 (New mockAPI 0) "user3").1 =
      .error (userNotFoundMsg "user3") :=
  (c9_amended_error_messages mockAPI cfgHourCooldown 0
      (New mockAPI 0)).2.2.2.2.2.1 "user3" rfl

/-- C10: when an on-demand account refresh (triggered by a user or group
lookup miss with the cooldown open) succeeds, the new snapshot is
installed, the key-refresh completion hook fires exactly once more, and
one key fetch per user of the new snapshot is performed, storing the
fetched keys for every such user. -/
theorem c10_refresh_success_rewarms_keys (api : APIClient) (cfg : Config) (now : Nat)
    (s : StoreState) (snap : Snapshot) (f : String → List String)
    (hA : api.UsersAndGroups s.usersGroupsCount = some snap) :
    (∀ n, lookupUserByName s.snapshot n = none → accountCooldownOpen cfg now s = true →
       (UserByName api cfg now s n).2 = accountFetch api now s) ∧
    (∀ n, lookupGroupByName s.snapshot n = none → accountCooldownOpen cfg now s = true →
       (GroupByName api cfg now s n).2 = accountFetch api now s) ∧
    (accountFetch api now s).snapshot = snap ∧
    (accountFetch api now s).keyRefreshDone = s.keyRefreshDone + 1 ∧
    (accountFetch api now s).keysCount = s.keysCount + snap.users.length ∧
    ((∀ i m, api.AuthorizedKeys i m = some (f m)) →
       ∀ u, u ∈ snap.users →
         assocGet (accountFetch api now s).keyCache u.Name = some (f u.Name)) := by
  have hfetch : accountFetch api now s = keyRefreshAll api now
      { s with usersGroupsCount := s.usersGroupsCount + 1, snapshot := snap,
               lastAccountRefresh := now,
               accountRefreshDone := s.accountRefreshDone + 1 } := by
    unfold accountFetch
    rw [hA]
  obtain ⟨e1, e2, e3, e4, e5, e6⟩ := accountFetch_succ api now s snap hA
  refine ⟨?_, ?_, e1, e5, e6, ?_⟩
  · intro n h1 h2
    cases hr : lookupUserByName (accountFetch api now s).snapshot n <;>
      simp [UserByName, h1, h2, hr]
  · intro n h1 h2
    simp [GroupByName, h1, h2]
  · intro hK u hu
    rw [hfetch]
    exact (keyRefreshAll_get_mem api now f hK
      { s with usersGroupsCount := s.usersGroupsCount + 1, snapshot := snap,
               lastAccountRefresh := now,
               accountRefreshDone := s.accountRefreshDone + 1 }
      u.Name (List.mem_map_of_mem User.Name hu)).1

/-- Witness for C10: in the on-demand scenario the key-refresh hook count
rises by one across the miss-triggered successful refresh. -/
theorem c10_refresh_success_rewarms_keys_witness :
    (UserByName failThenOkAPI cfgZeroCooldown 1 (New failThenOkAPI 0) "user1").2.keyRefreshDone =
      (New failThenOkAPI 0).keyRefreshDone + 1 := by
  have h := c10_refresh_success_rewarms_keys failThenOkAPI cfgZeroCooldown 1
    (New failThenOkAPI 0) mockSnap mockKeys rfl
  rw [h.1 "user1" rfl rfl]
  exact h.2.2.2.1

end GCUA
